import Mathlib

/-!
Verification of the tup build backend (`python/mozbuild/mozbuild/backend/tup.py`)
and the compile-command database backend
(`python/mozbuild/mozbuild/compilation/database.py`).

Paths and command arguments are plain strings, as in the Python source.  Each
definition is a direct translation of the named Python function or method; file
system writes are modelled by accumulating the written rule records in a
`BackendTupfile` value, and the mutable `TupOnly` backend state that the claims
touch (`_missing_commands`, `_manifest_entries`) is threaded explicitly.
-/

/-- The part of a path after the last slash (`mozpath.basename`, an external
path utility used by the source). -/
def basename (p : String) : String :=
  String.mk ((p.data.reverse.takeWhile (fun c => !(c == '/'))).reverse)

/-- The root part of `mozpath.splitext`: drops a trailing `.ext` occurring in
the last path component, if any (external path utility used by the source). -/
def splitextRoot (p : String) : String :=
  let r := p.data.reverse
  let ext := r.takeWhile (fun c => !(c == '.') && !(c == '/'))
  match r.drop ext.length with
  | '.' :: rest => String.mk rest.reverse
  | _ => p

/-- Python suffix test `o[-n:] == suff` / `str.endswith`, over the string data. -/
def endsWithStr (s suff : String) : Bool :=
  suff.data.reverse.isPrefixOf s.data.reverse

/-- The `$(MOZ_OBJ_ROOT)/<includes>` group token (`self._includes_group`). -/
def includesGroup : String := "$(MOZ_OBJ_ROOT)/<includes>"

/-- The `$(MOZ_OBJ_ROOT)/<installed-files>` group token (`self._installed_files`). -/
def installedFilesGroup : String := "$(MOZ_OBJ_ROOT)/<installed-files>"

/-- The `$(MOZ_OBJ_ROOT)/<objects>` group token (`self._objects_group`). -/
def objectsGroup : String := "$(MOZ_OBJ_ROOT)/<objects>"

/-- Recognize the three synthetic barrier/group tokens used by the backend. -/
def isGroupToken (o : String) : Bool :=
  o == includesGroup || o == installedFilesGroup || o == objectsGroup

/-- The generated-header test in `BackendTupfile.rule`:
`o[-2:] == ".h" or o[-4:] == ".cfg"`. -/
def isHeaderLike (o : String) : Bool :=
  endsWithStr o ".h" || endsWithStr o ".cfg"

/-- One emitted tup rule record: the data interpolated into the
`: inputs | extra-inputs |> display cmd |> outputs | extra-outputs` line. -/
structure Rule where
  inputs : List String
  extraInputs : List String
  cmd : List String
  outputs : List String
  extraOutputs : List String
  display : String
  checkUnchanged : Bool
deriving DecidableEq

/-- The outputs list actually written by `BackendTupfile.rule`: when any output
ends in `.h` or `.cfg` the includes group replaces whatever `output_group` the
caller passed; whichever group results is appended to the outputs. -/
def ruleOutputs (outputs : List String) (outputGroup : Option String) : List String :=
  let g := if outputs.any isHeaderLike then some includesGroup else outputGroup
  match g with
  | some grp => outputs ++ [grp]
  | none => outputs

/-- State of one generated Tupfile (`BackendTupfile`): its objdir key, the
one-time flags, the `_sources` object-name list and the emitted rule records. -/
structure BackendTupfile where
  objdir : String
  rulesIncluded : Bool
  shellExported : Bool
  sources : List String
  rules : List Rule
deriving DecidableEq

/-- A fresh `BackendTupfile` for an output directory. -/
def freshTupfile (objdir : String) : BackendTupfile :=
  { objdir := objdir, rulesIncluded := false, shellExported := false,
    sources := [], rules := [] }

/-- `BackendTupfile.rule`: writes the one-time `include_rules` header and
appends one rule record.  The Python method performs no check at all on
`outputs`: an empty outputs list is written as is. -/
def BackendTupfile.rule (tf : BackendTupfile) (cmd : List String)
    (inputs extraInputs : List String) (outputs : List String)
    (display : String) (extraOutputs : List String)
    (outputGroup : Option String) (checkUnchanged : Bool) : BackendTupfile :=
  { tf with
    rulesIncluded := true,
    rules := tf.rules ++ [{ inputs := inputs, extraInputs := extraInputs,
                            cmd := cmd, outputs := ruleOutputs outputs outputGroup,
                            extraOutputs := extraOutputs, display := display,
                            checkUnchanged := checkUnchanged }] }

/-- `BackendTupfile.symlink_rule`: a `!tup_ln` rule with
`check_unchanged = False`; the output defaults to the source's basename. -/
def BackendTupfile.symlinkRule (tf : BackendTupfile) (source : String)
    (output : Option String) (outputGroup : Option String) : BackendTupfile :=
  tf.rule ["!tup_ln"] [source] [] [output.getD (basename source)] "" [] outputGroup false

/-- `BackendTupfile.export_shell`: idempotent one-time shell export. -/
def BackendTupfile.exportShell (tf : BackendTupfile) : BackendTupfile :=
  { tf with shellExported := true }

/-- One verbatim install file handled by `TupOnly._process_final_target_files`:
its source path (`f.full_path`) and destination basename (`f.target_basename`). -/
structure InstallFile where
  fullPath : String
  targetBasename : String
deriving DecidableEq

/-- The non-wildcard branch of `TupOnly._process_final_target_files` for the
files of one destination directory: one symlink rule per file, into the
installed-files group. -/
def processInstallFiles (tf : BackendTupfile) (files : List InstallFile) : BackendTupfile :=
  files.foldl
    (fun tf f => tf.symlinkRule f.fullPath (some f.targetBasename) (some installedFilesGroup))
    tf

/-- Outputs of a rule that name concrete paths, i.e. are not barrier/group
tokens. -/
def Rule.concreteOutputs (r : Rule) : List String :=
  r.outputs.filter (fun o => !(isGroupToken o))

/-- The single-producer property over a list of emitted rules: no concrete
path is an output of two distinct rules (group tokens excepted). -/
def singleProducer (rules : List Rule) : Prop :=
  List.Pairwise (fun r₁ r₂ => ∀ o, o ∈ r₁.concreteOutputs → o ∉ r₂.concreteOutputs) rules

/-- Lexicographic code-point order on strings, as Python `sorted` uses; stated
over the underlying character lists so that it is kernel-computable. -/
def strLeProp (a b : String) : Prop := a.data ≤ b.data

instance : DecidableRel strLeProp :=
  fun a b => inferInstanceAs (Decidable (a.data ≤ b.data))

instance : IsTotal String strLeProp := ⟨fun a b => le_total a.data b.data⟩

instance : IsTrans String strLeProp := ⟨fun _ _ _ => le_trans⟩

instance : IsAntisymm String strLeProp :=
  ⟨fun a b h1 h2 => by cases a; cases b; exact congrArg String.mk (le_antisymm h1 h2)⟩

/-- Python `sorted` on a list of strings. -/
def sortedStr (l : List String) : List String := List.insertionSort strLeProp l

/-- The missing-command diagnostic store `self._missing_commands`
(an `OrderedDefaultDict(int)`), as an ordered association list. -/
abbrev MissingCounts := List (String × Nat)

/-- `self._missing_commands[key] += 1`: increment in place, appending a fresh
key at the end. -/
def bumpCount : MissingCounts → String → MissingCounts
  | [], k => [(k, 1)]
  | (k', n) :: rest, k =>
      if k' == k then (k', n + 1) :: rest else (k', n) :: bumpCount rest k

/-- The loaded command database `self._commands_db`, keyed by
(source file, directory) as in `_init`. -/
abbrev CommandsDb := List ((String × String) × List String)

/-- `self._commands_db.get(key, None)`. -/
def dbGet (db : CommandsDb) (key : String × String) : Option (List String) :=
  (db.find? (fun e => e.1 == key)).map (fun e => e.2)

/-- The per-directory backend state the compile/link emitters mutate: the
directory's `BackendTupfile` plus the shared missing-command counters. -/
structure TupState where
  backendFile : BackendTupfile
  missingCommands : MissingCounts
deriving DecidableEq

/-- The command lookup of `TupOnly._write_sources`: first the file itself,
then — only when the lookup failed and there are unified constituents — the
first constituent, in the same directory. -/
def lookupCommand (db : CommandsDb) (f objdir : String)
    (unifiedInputs : List String) : Option (List String) :=
  match dbGet db (f, objdir), unifiedInputs with
  | none, u :: _ => dbGet db (u, objdir)
  | c, _ => c

/-- The `suffix_map` of `TupOnly._write_sources`. -/
def suffixMap : List (String × String) :=
  [(".s", "AS"), (".c", "C"), (".m", "CM"), (".mm", "CMM"),
   (".cpp", "CPP"), (".rs", "RS"), (".S", "S")]

/-- `TupOnly._write_sources`: record the object name into `_sources`, resolve
the command (unified fallback, then `touch %o` placeholder with two
missing-command increments when still unresolved — Python's `if not cmd` also
treats an empty stored command as unresolved), and emit one compile rule. -/
def writeSources (db : CommandsDb) (st : TupState) (f : String)
    (canonicalSuffix clsName : String) (unifiedInputs : List String) : TupState :=
  let label := ((List.lookup canonicalSuffix suffixMap).getD "Compiling") ++ " %b"
  let bf0 := st.backendFile
  let bf := { bf0 with sources := bf0.sources ++ [basename (splitextRoot f) ++ ".o"] }
  match (lookupCommand db f bf.objdir unifiedInputs).getD [] with
  | [] =>
      { backendFile :=
          bf.rule ["touch", "%o"] [f] ([includesGroup, installedFilesGroup] ++ unifiedInputs)
            ["%B.o"] label [] (some objectsGroup) true,
        missingCommands :=
          bumpCount (bumpCount st.missingCommands canonicalSuffix) clsName }
  | cmd =>
      { backendFile :=
          bf.rule cmd [f] ([includesGroup, installedFilesGroup] ++ unifiedInputs)
            ["%B.o"] label [] (some objectsGroup) true,
        missingCommands := st.missingCommands }

/-- One `BaseSources` build object as `TupOnly._process_sources` consumes it. -/
structure SourcesObj where
  files : List String
  unified : Bool
  haveUnifiedMapping : Bool
  unifiedSourceMapping : List (String × List String)
  canonicalSuffix : String
  clsName : String
deriving DecidableEq

/-- `TupOnly._process_sources`: for unified sources the files are the mapping
keys (empty when there is no unified mapping); files are visited in sorted
order, each with its constituents from the mapping. -/
def processSources (db : CommandsDb) (st : TupState) (obj : SourcesObj) : TupState :=
  let mapping := if obj.unified && obj.haveUnifiedMapping then obj.unifiedSourceMapping else []
  let files := if obj.unified then mapping.map (fun p => p.1) else obj.files
  (sortedStr files).foldl
    (fun st f =>
      writeSources db st f obj.canonicalSuffix obj.clsName
        (((mapping.find? (fun p => p.1 == f)).map (fun p => p.2)).getD []))
    st

/-- Consume a sequence of sources objects of a single directory, in order. -/
def consumeSourcesRun (db : CommandsDb) (st : TupState) (objs : List SourcesObj) : TupState :=
  objs.foldl (fun st obj => processSources db st obj) st

/-- The manifest flush of `TupOnly.consume_finished`: the entries accumulated
for one destination (`self._manifest_entries`, a dict of sets — modelled as
the dedup of the accumulated (destination, entry) pairs) are written sorted. -/
def flushManifest (entries : List (String × String)) (dest : String) : List String :=
  sortedStr (((entries.filter (fun p => p.1 == dest)).map (fun p => p.2)).dedup)

/-- The kind of a frontend library node. -/
inductive LibKind where
  | staticLib | sharedLib | rustLib
deriving DecidableEq

/-- A linkable library node of the frontend build graph: kind, objdir, the
name used for linking, `linked_libraries` and `linked_system_libs`.
Modelled from the spec: the frontend class hierarchy
(`mozbuild.frontend.data`) is outside this source tree; per the spec's design
notes the Rust-library skip applies to the shared-library walk but not the
program walk, i.e. a `RustLibrary` satisfies `isinstance(lib, StaticLibrary)`
while still being distinguishable by an `isinstance(lib, RustLibrary)` test. -/
inductive Lib where
  | node : LibKind → String → String → List Lib → List String → Lib

/-- Kind of a library node. -/
def Lib.kind : Lib → LibKind
  | .node k _ _ _ _ => k

/-- Objdir of a library node. -/
def Lib.objdir : Lib → String
  | .node _ d _ _ _ => d

/-- `import_name` of a library node. -/
def Lib.importName : Lib → String
  | .node _ _ n _ _ => n

/-- `linked_libraries` of a library node. -/
def Lib.linkedLibraries : Lib → List Lib
  | .node _ _ _ ls _ => ls

/-- `linked_system_libs` of a library node. -/
def Lib.linkedSystemLibs : Lib → List String
  | .node _ _ _ _ ss => ss

/-- The `'%s/%s' % (l.objdir, l.import_name)` path of a library. -/
def libPath (l : Lib) : String := l.objdir ++ "/" ++ l.importName

/-- `isinstance(l, (StaticLibrary, RustLibrary))` — a RustLibrary is itself a
StaticLibrary subclass, so this is "static or rust". -/
def isStaticKind (k : LibKind) : Bool := k == .staticLib || k == .rustLib

mutual
/-- The inner helper `write_shared_and_system_libs` of
`TupOnly._process_program`: static (including Rust) dependencies are recursed
into without contributing a path of their own, any other dependency
contributes its path; after the loop the node's own system libs are appended.
Returns the (library paths, system libs) the call appends. -/
def writeSharedAndSystemLibs : Lib → List String × List String
  | .node _ _ _ children sys =>
      let p := wsslChildren children
      (p.1, p.2 ++ sys)
/-- The `for l in lib.linked_libraries` loop of `write_shared_and_system_libs`. -/
def wsslChildren : List Lib → List String × List String
  | [] => ([], [])
  | l :: rest =>
      let hd := if isStaticKind l.kind then writeSharedAndSystemLibs l else ([libPath l], [])
      let tl := wsslChildren rest
      (hd.1 ++ tl.1, hd.2 ++ tl.2)
end

/-- The kind of a deferred link target consumed by `TupOnly._process_program`. -/
inductive TargetKind where
  | programKind | simpleProgramKind | sharedLibKind | staticLibKind | otherKind
deriving DecidableEq

/-- A deferred link target: `obj.program` and `obj.lib_name` are collapsed into
one `name` field since each emission branch reads exactly one of them. -/
structure LinkTarget where
  kind : TargetKind
  name : String
  baseName : String
  linkedLibraries : List Lib
  linkedSystemLibs : List String

/-- `isinstance(obj, Library)` for a link target: shared and static library
targets. -/
def isLibraryTarget (k : TargetKind) : Bool :=
  k == .sharedLibKind || k == .staticLibKind

/-- `isinstance(obj, (Program, SimpleProgram))` for a link target. -/
def isProgramTarget (k : TargetKind) : Bool :=
  k == .programKind || k == .simpleProgramKind

/-- The `for lib in obj.linked_libraries` loop of `TupOnly._process_program`
followed by `system_libs.extend(obj.linked_system_libs)`: computes the
(libs, system_libs) accumulator pair. -/
def gatherLibs (obj : LinkTarget) : List String × List String :=
  let step := fun (acc : List String × List String) (lib : Lib) =>
    if isLibraryTarget obj.kind then
      if lib.kind == .rustLib then acc
      else if lib.kind == .staticLib then
        let acc1 := (acc.1 ++ [libPath lib], acc.2)
        if obj.kind == .sharedLibKind then
          let p := writeSharedAndSystemLibs lib
          (acc1.1 ++ p.1, acc1.2 ++ p.2)
        else acc1
      else (acc.1 ++ [libPath lib], acc.2)
    else if isProgramTarget obj.kind then
      if isStaticKind lib.kind then
        let p := writeSharedAndSystemLibs lib
        (acc.1 ++ [libPath lib] ++ p.1, acc.2 ++ p.2)
      else (acc.1 ++ [libPath lib], acc.2)
    else acc
  let r := obj.linkedLibraries.foldl step ([], [])
  (r.1, r.2 ++ obj.linkedSystemLibs)

/-- `uniq` from the source (`OrderedDict.fromkeys`): order-preserving
first-occurrence dedup.  `seen` carries the keys already emitted. -/
def uniqAux (seen : List String) : List String → List String
  | [] => []
  | a :: rest => if a ∈ seen then uniqAux seen rest else a :: uniqAux (a :: seen) rest

/-- `uniq(seq)` from the source. -/
def uniq (l : List String) : List String := uniqAux [] l

/-- The literal `"'<OBJS>'"` placeholder tested by `_process_program`
(a shell-quoted `<OBJS>` token). -/
def objsPlaceholder : String :=
  String.mk [Char.ofNat 39, '<', 'O', 'B', 'J', 'S', '>', Char.ofNat 39]

/-- `" ".join(inputs)`. -/
def joinSpaces (l : List String) : String := String.intercalate " " l

/-- The `.desc` substitution used on every link/archive rule's inputs:
`l + ".desc" if l.endswith('.a') else l`. -/
def descSubst (l : String) : String :=
  if endsWithStr l ".a" then l ++ ".desc" else l

/-- The configuration environment data `_process_program` reads
(`self.environment.substs['SHELL']`). -/
structure TupEnv where
  shell : String
deriving DecidableEq

/-- `TupOnly._process_program`: builds the libs/system-libs accumulator, then
emits one rule according to the target kind.  The source closure is the
directory's `_sources` list (`TupOnly._source_closure`, whose sort and
parent-directory walk are commented out in the source).  Programs and shared
libraries resolve a linker command template from the database, dropping its
final (filename) element, with an `ld.gold` default; static libraries emit the
`expandlibs_gen.py` descriptor rule; anything else a `touch %o` placeholder. -/
def processProgram (env : TupEnv) (db : CommandsDb) (st : TupState)
    (obj : LinkTarget) : TupState :=
  let libsSys := gatherLibs obj
  let bf := st.backendFile
  match obj.kind with
  | .programKind =>
      let cmd0 := ((dbGet db (bf.objdir ++ "/" ++ obj.name, bf.objdir)).getD
        ["ld.gold", "-o", "%o", ""]).dropLast
      let inputs := bf.sources ++ uniq libsSys.1
      let cmd1 := if cmd0.contains objsPlaceholder then cmd0 else cmd0 ++ inputs
      let cmd2 := (cmd1.map (fun e => if e == objsPlaceholder then joinSpaces inputs else e))
        ++ uniq libsSys.2
      { st with backendFile :=
          bf.rule cmd2 (inputs.map descSubst) [] [obj.name] "LINK %o" [] none true }
  | .sharedLibKind =>
      let cmd0 := ((dbGet db (bf.objdir ++ "/" ++ obj.name, bf.objdir)).getD
        ["ld.gold", "-o", "%o", ""]).dropLast
      let inputs := bf.sources ++ uniq libsSys.1
      let cmd1 := if cmd0.contains objsPlaceholder then cmd0 else cmd0 ++ inputs
      let cmd2 := (cmd1.map (fun e => if e == objsPlaceholder then joinSpaces inputs else e))
        ++ uniq libsSys.2
      { st with backendFile :=
          bf.rule cmd2 (inputs.map descSubst) [] [obj.name] "LINK %o" [] none true }
  | .staticLibKind =>
      let inputs := bf.sources ++ uniq libsSys.1
      let cmd := ["SHELL=" ++ env.shell, "$(PYTHON_PATH)",
                  "$(topsrcdir)/config/expandlibs_gen.py", "-o", obj.name ++ ".desc"]
        ++ inputs
      { st with backendFile :=
          bf.rule cmd (inputs.map descSubst) [] [obj.name ++ ".desc"] "AR %o" [] none true }
  | _ =>
      let outs := [obj.name, obj.baseName ++ "/" ++ obj.name]
      { st with backendFile := bf.rule ["touch", "%o"] [] [] outs "LINK %o" [] none true }

/-- A `GeneratedFile` build object as `TupOnly._process_generated_file`
consumes it; absent (`None`) script/method attributes are `none`. -/
structure GeneratedFileObj where
  script : Option String
  method : Option String
  relobjdir : String
  outputs : List String
  inputs : List String
  flags : List String
deriving DecidableEq

/-- The `skip_directories` of `TupOnly._process_generated_file`. -/
def skipDirectories : List String := ["layout/style/test", "toolkit/library"]

/-- `TupOnly._py_action`. -/
def pyAction (action : String) : List String :=
  ["$(PYTHON)", "-m", "mozbuild.action." ++ action]

/-- `TupOnly._process_generated_file`: emits one `file_generate` rule when the
object has both a script and a method and its directory is not skipped;
otherwise the backend file is left untouched and nothing is recorded (the
shell quoting of `obj.flags`, an external utility, is elided). -/
def processGeneratedFile (tf : BackendTupfile) (obj : GeneratedFileObj) : BackendTupfile :=
  match obj.script, obj.method with
  | some script, some method =>
      if obj.relobjdir ∈ skipDirectories then tf
      else
        let tf := tf.exportShell
        let firstOutput := obj.outputs.headD ""
        let cmd := pyAction "file_generate"
          ++ [script, method, firstOutput, firstOutput ++ ".pp"]
          ++ obj.inputs ++ obj.flags
        tf.rule cmd obj.inputs [] (obj.outputs ++ [firstOutput ++ ".pp"])
          ("python " ++ script ++ ":" ++ method ++ " -> [%o]") []
          (some installedFilesGroup) true
  | _, _ => tf

/-- The final-argument assembly of `CompileDBBackend.consume_finished`: each
database value is the per-directory command template with the looked-up
filename appended — except that a constituent entry of a unified source gets
the unified name appended instead — followed by that file's per-source flags.
(The `expand_variables` substitution loop, which depends on the external
`substs` environment, is elided: it rewrites `$(VAR)` tokens only.) -/
def assembleDbCommand (template : List String) (filename : String)
    (unified : Option String) (perSourceFlags : List String) : List String :=
  (template ++ [match unified with | some u => u | none => filename]) ++ perSourceFlags

/-- An empty rule record, used as a list-head default in concrete statements. -/
def emptyRule : Rule :=
  { inputs := [], extraInputs := [], cmd := [], outputs := [], extraOutputs := [],
    display := "", checkUnchanged := false }

/-- A fresh per-directory state with no sources, rules or counters. -/
def st0 : TupState := { backendFile := freshTupfile "dir", missingCommands := [] }

/-- A one-file `Sources` object (fixture). -/
def srcObjA : SourcesObj :=
  { files := ["a.c"], unified := false, haveUnifiedMapping := false,
    unifiedSourceMapping := [], canonicalSuffix := ".c", clsName := "Sources" }

/-- A one-file `Sources` object (fixture). -/
def srcObjB : SourcesObj :=
  { files := ["b.c"], unified := false, haveUnifiedMapping := false,
    unifiedSourceMapping := [], canonicalSuffix := ".c", clsName := "Sources" }

/-- A program target with no library dependencies (fixture). -/
def progT : LinkTarget :=
  { kind := .programKind, name := "prog", baseName := "prog",
    linkedLibraries := [], linkedSystemLibs := [] }

/-- Shared library S of the C2 chain E → A → B → S (fixture, system libs open). -/
def sLibC (sysS : List String) : Lib := .node .sharedLib "Sdir" "libS.so" [] sysS

/-- Static library B of the C2 chain, depending on S (fixture). -/
def bLibC (sysS sysB : List String) : Lib := .node .staticLib "Bdir" "libB.a" [sLibC sysS] sysB

/-- Static library A of the C2 chain, depending on B (fixture). -/
def aLibC (sysS sysB sysA : List String) : Lib :=
  .node .staticLib "Adir" "libA.a" [bLibC sysS sysB] sysA

/-- Executable E of the C2 chain, depending on A (fixture). -/
def eTargetC (sysS sysB sysA sysE : List String) : LinkTarget :=
  { kind := .programKind, name := "eprog", baseName := "eprog",
    linkedLibraries := [aLibC sysS sysB sysA], linkedSystemLibs := sysE }

/-- E's directory state: one compiled object `main.o` in the closure (fixture). -/
def eState : TupState :=
  { backendFile := { objdir := "Edir", rulesIncluded := false, shellExported := false,
                     sources := ["main.o"], rules := [] },
    missingCommands := [] }

/-- A leaf Rust library (fixture). -/
def rustLeafC : Lib := .node .rustLib "Rdir" "libR.a" [] []

/-- A program target whose only direct dependency is a Rust library (fixture). -/
def rustProgC : LinkTarget :=
  { kind := .programKind, name := "p", baseName := "p",
    linkedLibraries := [rustLeafC], linkedSystemLibs := [] }

/-- The symlink rule record `processInstallFiles` emits for one install file. -/
def installRecord (f : InstallFile) : Rule :=
  { inputs := [f.fullPath], extraInputs := [], cmd := ["!tup_ln"],
    outputs := ruleOutputs [f.targetBasename] (some installedFilesGroup),
    extraOutputs := [], display := "", checkUnchanged := false }

/-- E's emitted link state at concrete system libs (fixture). -/
def c2RunE : TupState :=
  processProgram { shell := "/bin/sh" } [] eState
    (eTargetC ["-lS"] ["-lB"] ["-lA"] ["-lE"])

/-- A's directory state with one compiled object `aobj.o` (fixture). -/
def aState : TupState :=
  { backendFile := { objdir := "Adir", rulesIncluded := false, shellExported := false,
                     sources := ["aobj.o"], rules := [] },
    missingCommands := [] }

/-- A's deferred StaticLibrary target (fixture). -/
def aTargetC : LinkTarget :=
  { kind := .staticLibKind, name := "libA.a", baseName := "a",
    linkedLibraries := [bLibC ["-lS"] ["-lB"]], linkedSystemLibs := ["-lA"] }

/-- A's emitted archive-descriptor state (fixture). -/
def c2RunA : TupState := processProgram { shell := "/bin/sh" } [] aState aTargetC

/-- The link emission for a program with no libraries over an empty command
database (fixture). -/
def c6Run : TupState := processProgram { shell := "/bin/sh" } [] st0 progT

/-! ## Shared helper lemmas -/

/-- `uniqAux` membership: an element is kept iff it occurs and was not seen. -/
theorem mem_uniqAux (a : String) (l : List String) :
    ∀ seen, a ∈ uniqAux seen l ↔ (a ∈ l ∧ a ∉ seen) := by
  induction l with
  | nil => intro seen; simp [uniqAux]
  | cons b rest ih =>
      intro seen
      by_cases hb : b ∈ seen
      · rw [uniqAux, if_pos hb, ih seen]
        simp only [List.mem_cons]
        constructor
        · rintro ⟨h1, h2⟩; exact ⟨Or.inr h1, h2⟩
        · rintro ⟨rfl | h1, h2⟩
          · exact absurd hb h2
          · exact ⟨h1, h2⟩
      · rw [uniqAux, if_neg hb]
        simp only [List.mem_cons, ih (b :: seen)]
        constructor
        · rintro (rfl | ⟨h1, h2⟩)
          · exact ⟨Or.inl rfl, hb⟩
          · refine ⟨Or.inr h1, fun hs => h2 (Or.inr hs)⟩
        · rintro ⟨rfl | h1, h2⟩
          · exact Or.inl rfl
          · by_cases hab : a = b
            · exact Or.inl hab
            · refine Or.inr ⟨h1, fun hm => ?_⟩
              rcases hm with h | h
              · exact hab h
              · exact h2 h

/-- `uniqAux` never emits a duplicate. -/
theorem nodup_uniqAux (l : List String) : ∀ seen, (uniqAux seen l).Nodup := by
  induction l with
  | nil => intro seen; simp [uniqAux]
  | cons b rest ih =>
      intro seen
      by_cases hb : b ∈ seen
      · rw [uniqAux, if_pos hb]; exact ih seen
      · rw [uniqAux, if_neg hb]
        refine List.nodup_cons.mpr ⟨?_, ih (b :: seen)⟩
        intro hmem
        exact ((mem_uniqAux b rest (b :: seen)).1 hmem).2 (List.mem_cons_self b seen)

/-- `uniq` keeps exactly the elements of its argument. -/
theorem mem_uniq (a : String) (l : List String) : a ∈ uniq l ↔ a ∈ l := by
  rw [uniq, mem_uniqAux]; simp

/-- `uniq` emits no duplicates. -/
theorem nodup_uniq (l : List String) : (uniq l).Nodup := nodup_uniqAux l []

/-- Sorting is invariant under permutation of the input. -/
theorem sortedStr_perm_eq {l₁ l₂ : List String} (h : l₁.Perm l₂) :
    sortedStr l₁ = sortedStr l₂ :=
  List.eq_of_perm_of_sorted
    ((List.perm_insertionSort strLeProp l₁).trans
      (h.trans (List.perm_insertionSort strLeProp l₂).symm))
    (List.sorted_insertionSort strLeProp l₁) (List.sorted_insertionSort strLeProp l₂)

/-! ## Claim C3 -/

/-- Claim C3 counterexample: a caller-specified group is NOT kept when an
output matches `*.h`/`*.cfg` — the source overwrites `output_group` with the
includes group before appending, so a rule for `foo.h` called with the objects
group as its explicit group ends up attached to the includes group instead. -/
theorem c3_headers_barrier_cex :
    ruleOutputs ["foo.h"] (some objectsGroup) = ["foo.h", includesGroup] ∧
    ruleOutputs ["foo.h"] (some objectsGroup) ≠ ["foo.h", objectsGroup] := by
  constructor <;> decide

/-- Claim C3 (amended): when any output of an emitted rule ends in `.h` or
`.cfg`, the includes group (`HeadersBarrier`) is appended as an additional
output, REPLACING any caller-specified group; otherwise the caller's group (if
any) is appended unchanged. -/
theorem c3_headers_barrier_amended (outs : List String) (g : Option String) :
    (outs.any isHeaderLike = true → ruleOutputs outs g = outs ++ [includesGroup]) ∧
    (outs.any isHeaderLike = false → ruleOutputs outs g = outs ++ g.toList) := by
  constructor
  · intro h; simp [ruleOutputs, h]
  · intro h; cases g <;> simp [ruleOutputs, h]

/-- Witness for C3: `gen.cfg` with no caller group gets the includes group. -/
theorem c3_headers_barrier_witness :
    ruleOutputs ["gen.cfg"] none = ["gen.cfg"] ++ [includesGroup] :=
  (c3_headers_barrier_amended ["gen.cfg"] none).1 (by decide)

/-! ## Claim C4 -/

/-- Claim C4 counterexample: `BackendTupfile.rule` performs no emptiness check
on `outputs` — a call with an empty outputs list and a non-trivial command
emits a rule record normally instead of failing the run. -/
theorem c4_empty_outputs_cex :
    ((freshTupfile "d").rule ["somecommand"] [] [] [] "" [] none true).rules ≠ [] ∧
    ((freshTupfile "d").rule ["somecommand"] [] [] [] "" [] none true).rules =
      [{ inputs := [], extraInputs := [], cmd := ["somecommand"], outputs := [],
         extraOutputs := [], display := "", checkUnchanged := true }] := by
  constructor <;> decide

/-- Claim C4 (amended): a rule call with empty `outputs` raises no error and is
not dropped — exactly one record is appended, whose outputs are just the
caller's group token if one was given, and empty otherwise. -/
theorem c4_empty_outputs_amended (tf : BackendTupfile) (cmd inputs extraInputs
    extraOutputs : List String) (display : String) (g : Option String) (cu : Bool) :
    (tf.rule cmd inputs extraInputs [] display extraOutputs g cu).rules =
      tf.rules ++ [{ inputs := inputs, extraInputs := extraInputs, cmd := cmd,
                     outputs := g.toList, extraOutputs := extraOutputs,
                     display := display, checkUnchanged := cu }] := by
  cases g <;> simp [BackendTupfile.rule, ruleOutputs]

/-- Witness for C4 at a concrete empty-outputs call. -/
theorem c4_empty_outputs_witness :
    ((freshTupfile "d").rule ["gen"] ["in"] [] [] "disp" [] none false).rules =
      (freshTupfile "d").rules ++
        [{ inputs := ["in"], extraInputs := [], cmd := ["gen"],
           outputs := (none : Option String).toList, extraOutputs := [],
           display := "disp", checkUnchanged := false }] :=
  c4_empty_outputs_amended (freshTupfile "d") ["gen"] ["in"] [] [] "disp" none false

/-! ## Claim C5 -/

/-- Claim C5 (confirmed): the unified-source command lookup tries the unified
output name first and the first constituent second, first hit winning; and the
database assembles a constituent's entry as the shared per-directory template
with the unified name substituted as the final argument, so a fallback hit
resolves to the constituent's command ending in the unified name. -/
theorem c5_unified_fallback (db : CommandsDb) (f u objdir : String)
    (rest : List String) (c template : List String) (fname : String) :
    (dbGet db (f, objdir) = some c → lookupCommand db f objdir (u :: rest) = some c) ∧
    (dbGet db (f, objdir) = none →
      lookupCommand db f objdir (u :: rest) = dbGet db (u, objdir)) ∧
    (dbGet db (f, objdir) = none →
      dbGet db (u, objdir) = some (assembleDbCommand template u (some f) []) →
      lookupCommand db f objdir (u :: rest) = some (template ++ [f])) ∧
    assembleDbCommand template fname (some f) [] =
      (assembleDbCommand template fname none []).dropLast ++ [f] := by
  refine ⟨?_, ?_, ?_, ?_⟩
  · intro h; simp [lookupCommand, h]
  · intro h; simp [lookupCommand, h]
  · intro h h2; simp [lookupCommand, h, h2, assembleDbCommand]
  · simp [assembleDbCommand]

/-- Witness for C5: a unified file missing from the database resolves through
its first constituent to the template with the unified name as final argument. -/
theorem c5_unified_fallback_witness :
    lookupCommand [(("u0.cpp", "d"), ["cc", "Unified.cpp"])] "Unified.cpp" "d"
      ["u0.cpp"] = some (["cc"] ++ ["Unified.cpp"]) :=
  (c5_unified_fallback [(("u0.cpp", "d"), ["cc", "Unified.cpp"])] "Unified.cpp"
    "u0.cpp" "d" [] [] ["cc"] "x").2.2.1 (by decide) (by decide)

/-! ## Claim C10 -/

/-- Claim C10 (confirmed): a `GeneratedFile` object with an absent script or
method attribute produces no rule and no state change at all — the backend
file is returned untouched, silently, and the graph walk continues. -/
theorem c10_generated_file_skip (tf : BackendTupfile) (obj : GeneratedFileObj)
    (h : obj.script = none ∨ obj.method = none) :
    processGeneratedFile tf obj = tf := by
  cases hs : obj.script <;> cases hm : obj.method <;>
    simp_all [processGeneratedFile]

/-- Witness for C10: an object with no script is skipped without a trace. -/
theorem c10_generated_file_skip_witness :
    processGeneratedFile (freshTupfile "d")
      { script := none, method := some "main", relobjdir := "dir",
        outputs := ["out.h"], inputs := [], flags := [] } = freshTupfile "d" :=
  c10_generated_file_skip (freshTupfile "d")
    { script := none, method := some "main", relobjdir := "dir",
      outputs := ["out.h"], inputs := [], flags := [] } (Or.inl rfl)

/-! ## Claim C1 -/

/-- The rules accumulated by `processInstallFiles` are the input's records. -/
theorem processInstallFiles_rules (tf : BackendTupfile) (files : List InstallFile) :
    (processInstallFiles tf files).rules = tf.rules ++ files.map installRecord := by
  induction files generalizing tf with
  | nil => simp [processInstallFiles]
  | cons f rest ih =>
      have step : processInstallFiles tf (f :: rest) =
          processInstallFiles (tf.symlinkRule f.fullPath (some f.targetBasename)
            (some installedFilesGroup)) rest := rfl
      rw [step, ih]
      simp [BackendTupfile.symlinkRule, BackendTupfile.rule, installRecord]

/-- The includes group is a group token. -/
theorem isGroupToken_includes : isGroupToken includesGroup = true := by decide

/-- The installed-files group is a group token. -/
theorem isGroupToken_installed : isGroupToken installedFilesGroup = true := by decide

/-- The concrete outputs of an install record are exactly its basename. -/
theorem installRecord_concreteOutputs (f : InstallFile)
    (h : isGroupToken f.targetBasename = false) :
    (installRecord f).concreteOutputs = [f.targetBasename] := by
  rcases hb : [f.targetBasename].any isHeaderLike <;>
    simp [installRecord, Rule.concreteOutputs, ruleOutputs, hb, List.filter, h,
      isGroupToken_includes, isGroupToken_installed]

instance : DecidableRel
    (fun r₁ r₂ : Rule => ∀ o, o ∈ r₁.concreteOutputs → o ∉ r₂.concreteOutputs) :=
  fun _ r₂ => List.decidableBAll (fun o => o ∉ r₂.concreteOutputs) _

instance (rules : List Rule) : Decidable (singleProducer rules) :=
  inferInstanceAs (Decidable (List.Pairwise _ rules))

/-- Claim C1 counterexample: the compiler applies no duplicate-output check —
a run consuming two install files with the same destination basename emits two
distinct rules both claiming the concrete output `foo.txt`, so the
single-producer property fails on this input sequence. -/
theorem c1_single_producer_cex :
    ¬ singleProducer (processInstallFiles (freshTupfile "dist/bin")
        [{ fullPath := "srcdir/a/foo.txt", targetBasename := "foo.txt" },
         { fullPath := "srcdir/b/foo.txt", targetBasename := "foo.txt" }]).rules := by
  decide

/-- Claim C1 (amended): the backend never deduplicates outputs, so the
single-producer invariant holds exactly when the consumed objects declare
pairwise-distinct concrete output paths: for install sequences with distinct
destination basenames (none a barrier/group token) no concrete path is an
output of two distinct emitted rules, group tokens excepted. -/
theorem c1_single_producer_amended (d : String) (files : List InstallFile)
    (hnodup : (files.map InstallFile.targetBasename).Nodup)
    (hng : ∀ f ∈ files, isGroupToken f.targetBasename = false) :
    singleProducer (processInstallFiles (freshTupfile d) files).rules := by
  unfold singleProducer
  rw [processInstallFiles_rules]
  simp only [freshTupfile, List.nil_append]
  rw [List.pairwise_map]
  have hp : files.Pairwise (fun a b => a.targetBasename ≠ b.targetBasename) := by
    have := (List.nodup_iff_sublist.mp hnodup)
    rw [List.Nodup, List.pairwise_map] at hnodup
    exact hnodup
  refine hp.imp_of_mem ?_
  intro a b ha hb hne o hoa hob
  rw [installRecord_concreteOutputs a (hng a ha)] at hoa
  rw [installRecord_concreteOutputs b (hng b hb)] at hob
  simp at hoa hob
  exact hne (hoa ▸ hob ▸ rfl)

/-- Witness for C1 on a two-file sequence with distinct basenames. -/
theorem c1_single_producer_witness :
    singleProducer (processInstallFiles (freshTupfile "dist/bin")
      [{ fullPath := "s/a.txt", targetBasename := "a.txt" },
       { fullPath := "s/b.h", targetBasename := "b.h" }]).rules :=
  c1_single_producer_amended "dist/bin"
    [{ fullPath := "s/a.txt", targetBasename := "a.txt" },
     { fullPath := "s/b.h", targetBasename := "b.h" }] (by decide) (by decide)

/-! ## Claim C7 -/

/-- `_write_sources` appends exactly one object name to `_sources`. -/
theorem writeSources_sources (db : CommandsDb) (st : TupState)
    (f sfx cls : String) (u : List String) :
    (writeSources db st f sfx cls u).backendFile.sources =
      st.backendFile.sources ++ [basename (splitextRoot f) ++ ".o"] := by
  unfold writeSources
  cases h : (lookupCommand db f st.backendFile.objdir u).getD [] <;>
    simp [h, BackendTupfile.rule]

/-- Folding `_write_sources` over a file list appends the object names in
list order. -/
theorem foldl_writeSources_sources (db : CommandsDb) (sfx cls : String)
    (uf : String → List String) (l : List String) (st : TupState) :
    ((l.foldl (fun st f => writeSources db st f sfx cls (uf f)) st).backendFile.sources) =
      st.backendFile.sources ++ l.map (fun f => basename (splitextRoot f) ++ ".o") := by
  induction l generalizing st with
  | nil => simp
  | cons f rest ih =>
      rw [List.foldl_cons, ih, writeSources_sources]
      simp

/-- Claim C7 counterexample: two single-file `Sources` objects of one
directory consumed in the two possible orders are permutations of each other,
yet the directory's resulting source-closure lists differ — only the files
inside one object are sorted, objects append in consumption order (the
closure-level sort in `_source_closure` is commented out in the source). -/
theorem c7_determinism_cex :
    [srcObjA, srcObjB].Perm [srcObjB, srcObjA] ∧
    (consumeSourcesRun [] st0 [srcObjA, srcObjB]).backendFile.sources ≠
      (consumeSourcesRun [] st0 [srcObjB, srcObjA]).backendFile.sources := by
  constructor
  · exact List.Perm.swap srcObjB srcObjA []
  · decide

/-- Claim C7 (amended): the flushed manifest output is order-independent
(entries are deduplicated as a set and written sorted), and within one sources
object the object names enter the closure in file-sorted order; but the
directory closure across several objects follows consumption order, so only
the manifest half of the claim is order-independent. -/
theorem c7_determinism_amended (e₁ e₂ : List (String × String)) (hperm : e₁.Perm e₂)
    (dest : String) (db : CommandsDb) (st : TupState) (obj : SourcesObj)
    (hu : obj.unified = false) :
    flushManifest e₁ dest = flushManifest e₂ dest ∧
    (processSources db st obj).backendFile.sources =
      st.backendFile.sources ++
        (sortedStr obj.files).map (fun f => basename (splitextRoot f) ++ ".o") := by
  constructor
  · unfold flushManifest
    exact sortedStr_perm_eq (((hperm.filter _).map _).dedup)
  · unfold processSources
    rw [hu]
    simp only [Bool.false_and, if_neg Bool.false_ne_true, if_false]
    exact foldl_writeSources_sources db obj.canonicalSuffix obj.clsName _ _ st

/-- Witness for C7 at a two-entry manifest permutation and a one-file object. -/
theorem c7_determinism_witness :
    flushManifest [("m", "x"), ("m", "y")] "m" =
      flushManifest [("m", "y"), ("m", "x")] "m" ∧
    (processSources [] st0 srcObjA).backendFile.sources =
      st0.backendFile.sources ++
        (sortedStr srcObjA.files).map (fun f => basename (splitextRoot f) ++ ".o") :=
  c7_determinism_amended [("m", "x"), ("m", "y")] [("m", "y"), ("m", "x")]
    (List.Perm.swap ("m", "y") ("m", "x") []) "m" [] st0 srcObjA rfl

/-! ## Claim C9 -/

/-- Appending `.desc` never produces a generated-header-like name. -/
theorem isHeaderLike_desc (s : String) : isHeaderLike (s ++ ".desc") = false := by
  obtain ⟨sd⟩ := s
  have hdata : (String.mk sd ++ ".desc").data = sd ++ ['.', 'd', 'e', 's', 'c'] := rfl
  have hrev : (sd ++ ['.', 'd', 'e', 's', 'c']).reverse
      = 'c' :: 's' :: 'e' :: 'd' :: '.' :: sd.reverse := by
    rw [List.reverse_append]; rfl
  unfold isHeaderLike endsWithStr
  rw [hdata, hrev]
  rfl

/-- Claim C9 (confirmed): a StaticLibrary target does not link — its rule runs
the external `expandlibs_gen.py` descriptor generator with `<libname>.desc` as
its only output (no barrier/group is attached); its inputs have every path
ending in `.a` replaced by that path with `.desc` appended, and so do the
inputs of every Program and SharedLibrary link rule, so dependents consume the
descriptor rather than the archive file. -/
theorem c9_static_desc (env : TupEnv) (db : CommandsDb) (st : TupState)
    (obj : LinkTarget) (hk : obj.kind = .staticLibKind) :
    ((processProgram env db st obj).backendFile.rules =
      st.backendFile.rules ++
        [{ inputs := (st.backendFile.sources ++ uniq (gatherLibs obj).1).map descSubst,
           extraInputs := [],
           cmd := ["SHELL=" ++ env.shell, "$(PYTHON_PATH)",
                   "$(topsrcdir)/config/expandlibs_gen.py", "-o", obj.name ++ ".desc"]
             ++ (st.backendFile.sources ++ uniq (gatherLibs obj).1),
           outputs := [obj.name ++ ".desc"], extraOutputs := [], display := "AR %o",
           checkUnchanged := true }]) ∧
    (∀ l, endsWithStr l ".a" = true → descSubst l = l ++ ".desc") ∧
    (∀ l, endsWithStr l ".a" = false → descSubst l = l) ∧
    (∀ (env2 : TupEnv) (db2 : CommandsDb) (st2 : TupState) (obj2 : LinkTarget),
      obj2.kind = .programKind ∨ obj2.kind = .sharedLibKind →
      (processProgram env2 db2 st2 obj2).backendFile.rules.map Rule.inputs =
        st2.backendFile.rules.map Rule.inputs ++
          [(st2.backendFile.sources ++ uniq (gatherLibs obj2).1).map descSubst]) := by
  refine ⟨?_, ?_, ?_, ?_⟩
  · unfold processProgram
    rw [hk]
    simp [BackendTupfile.rule, ruleOutputs, isHeaderLike_desc]
  · intro l h; simp [descSubst, h]
  · intro l h; simp [descSubst, h]
  · intro env2 db2 st2 obj2 hk2
    rcases hk2 with hk2 | hk2 <;>
      (unfold processProgram; rw [hk2]; simp [BackendTupfile.rule])

/-- Witness for C9 at a concrete StaticLibrary target, with the `descSubst`
characterization and the dependent link-rule input substitution. -/
theorem c9_static_desc_witness :
    ((processProgram { shell := "/bin/sh" } [] st0
        { kind := .staticLibKind, name := "libZ.a", baseName := "z",
          linkedLibraries := [], linkedSystemLibs := [] }).backendFile.rules =
      st0.backendFile.rules ++
        [{ inputs := (st0.backendFile.sources ++ uniq (gatherLibs
              { kind := .staticLibKind, name := "libZ.a", baseName := "z",
                linkedLibraries := [], linkedSystemLibs := [] }).1).map descSubst,
           extraInputs := [],
           cmd := ["SHELL=" ++ "/bin/sh", "$(PYTHON_PATH)",
                   "$(topsrcdir)/config/expandlibs_gen.py", "-o", "libZ.a" ++ ".desc"]
             ++ (st0.backendFile.sources ++ uniq (gatherLibs
                  { kind := .staticLibKind, name := "libZ.a", baseName := "z",
                    linkedLibraries := [], linkedSystemLibs := [] }).1),
           outputs := ["libZ.a" ++ ".desc"], extraOutputs := [], display := "AR %o",
           checkUnchanged := true }]) ∧
    (∀ l, endsWithStr l ".a" = true → descSubst l = l ++ ".desc") ∧
    (∀ l, endsWithStr l ".a" = false → descSubst l = l) ∧
    (∀ (env2 : TupEnv) (db2 : CommandsDb) (st2 : TupState) (obj2 : LinkTarget),
      obj2.kind = .programKind ∨ obj2.kind = .sharedLibKind →
      (processProgram env2 db2 st2 obj2).backendFile.rules.map Rule.inputs =
        st2.backendFile.rules.map Rule.inputs ++
          [(st2.backendFile.sources ++ uniq (gatherLibs obj2).1).map descSubst]) :=
  c9_static_desc { shell := "/bin/sh" } [] st0
    { kind := .staticLibKind, name := "libZ.a", baseName := "z",
      linkedLibraries := [], linkedSystemLibs := [] } rfl

/-! ## Claim C8 -/

/-- Folding a step function that ignores dropped elements over a filtered list
equals folding over the whole list. -/
theorem foldl_filter_skip {α β : Type _} (step : β → α → β) (keep : α → Bool)
    (l : List α) (acc : β)
    (hskip : ∀ acc a, keep a = false → step acc a = acc) :
    (l.filter keep).foldl step acc = l.foldl step acc := by
  induction l generalizing acc with
  | nil => rfl
  | cons a rest ih =>
      cases hk : keep a
      · rw [List.filter_cons, if_neg (by simp [hk]), List.foldl_cons,
            hskip acc a hk, ih]
      · rw [List.filter_cons, if_pos (by simp [hk]), List.foldl_cons,
            List.foldl_cons, ih]

/-- Claim C8 counterexample: for a Program target, a direct RustLibrary
dependency is NOT skipped — `isinstance(lib, StaticLibrary)` also matches a
RustLibrary, so the Program branch appends the Rust library's path to the libs
list, unlike the Library-target branch which `continue`s on RustLibrary. -/
theorem c8_rust_skip_cex :
    (gatherLibs rustProgC).1 = ["Rdir/libR.a"] ∧
    libPath rustLeafC ∈ (gatherLibs rustProgC).1 := by
  constructor <;> decide

/-- Claim C8 (amended): a RustLibrary dependency contributes no library path
when the current target is a Library (shared or static) — removing Rust direct
dependencies there does not change the gathered libs — and a Rust node inside
the recursive `write_shared_and_system_libs` walk contributes no path of its
own (only its system libs and its own closure); but for an
executable/simple-program target a direct RustLibrary dependency is treated
like a StaticLibrary and its path IS appended. -/
theorem c8_rust_skip_amended (k : TargetKind) (nm bn : String) (ll : List Lib)
    (sl : List String) (h : isLibraryTarget k = true)
    (d n : String) (sys sysP : List String) (rest : List Lib) :
    gatherLibs { kind := k, name := nm, baseName := bn,
                 linkedLibraries := ll.filter (fun l => !(l.kind == .rustLib)),
                 linkedSystemLibs := sl } =
      gatherLibs { kind := k, name := nm, baseName := bn,
                   linkedLibraries := ll, linkedSystemLibs := sl } ∧
    writeSharedAndSystemLibs (Lib.node .rustLib d n [] sys) = ([], sys) ∧
    wsslChildren (Lib.node .rustLib d n [] sys :: rest) =
      ((wsslChildren rest).1, sys ++ (wsslChildren rest).2) ∧
    gatherLibs { kind := .programKind, name := nm, baseName := bn,
                 linkedLibraries := [Lib.node .rustLib d n [] sys],
                 linkedSystemLibs := sysP } = ([d ++ "/" ++ n], sys ++ sysP) := by
  refine ⟨?_, ?_, ?_, ?_⟩
  · unfold gatherLibs
    simp only []
    rw [foldl_filter_skip]
    intro acc a ha
    have ha' : (a.kind == LibKind.rustLib) = true := by
      cases hx : a.kind == LibKind.rustLib
      · rw [hx] at ha; simp at ha
      · rfl
    simp [h, ha']
  · simp [writeSharedAndSystemLibs, wsslChildren]
  · rw [wsslChildren]
    simp [writeSharedAndSystemLibs, wsslChildren, isStaticKind, Lib.kind]
  · simp [gatherLibs, isLibraryTarget, isProgramTarget, isStaticKind,
          writeSharedAndSystemLibs, wsslChildren, libPath, Lib.kind,
          Lib.objdir, Lib.importName]

/-- Witness for C8: filtering the Rust dependency out of a shared-library
target's direct dependencies leaves the gathered libs unchanged. -/
theorem c8_rust_skip_witness :
    gatherLibs { kind := .sharedLibKind, name := "libx.so", baseName := "x",
                 linkedLibraries := [rustLeafC].filter (fun l => !(l.kind == .rustLib)),
                 linkedSystemLibs := [] } =
      gatherLibs { kind := .sharedLibKind, name := "libx.so", baseName := "x",
                   linkedLibraries := [rustLeafC], linkedSystemLibs := [] } :=
  (c8_rust_skip_amended .sharedLibKind "libx.so" "x" [rustLeafC] [] (by decide)
    "Rdir" "libR.a" [] [] []).1

/-! ## Claim C2 -/

/-- Replacing the `<OBJS>` placeholder in a command not containing it is the
identity. -/
theorem map_replace_of_not_mem (x : String) (l : List String)
    (h : objsPlaceholder ∉ l) :
    l.map (fun e => if e = objsPlaceholder then x else e) = l := by
  induction l with
  | nil => rfl
  | cons a rest ih =>
      rw [List.mem_cons] at h
      push_neg at h
      rw [List.map_cons, ih h.2, if_neg (fun he => h.1 he.symm)]

/-- The libs/system-libs pair gathered for the chain E → A → B → S: A's
archive and S's import name (B contributes no path — only recursion), and the
system libs in post-order B, A, E. -/
theorem gatherLibs_eTarget (sysS sysB sysA sysE : List String) :
    gatherLibs (eTargetC sysS sysB sysA sysE) =
      (["Adir/libA.a", "Sdir/libS.so"], sysB ++ (sysA ++ sysE)) := by
  simp [gatherLibs, eTargetC, aLibC, bLibC, sLibC, writeSharedAndSystemLibs,
        wsslChildren, isLibraryTarget, isProgramTarget, isStaticKind, libPath,
        Lib.kind, Lib.objdir, Lib.importName]

/-- Claim C2 counterexample: in the dependency chain E → A → B → S, the link
rule emitted for E does not list the object closures of A or B — B's archive
appears nowhere in E's rule (neither in the command nor among the inputs, not
even as a descriptor), and A's compiled object `aobj.o`, which does appear in
A's own descriptor rule, appears nowhere in E's rule.  E's rule carries only
E's own closure, A's archive and S's import name. -/
theorem c2_link_closure_cex :
    (c2RunE.backendFile.rules.headD emptyRule).cmd =
      ["ld.gold", "-o", "%o", "main.o", "Adir/libA.a", "Sdir/libS.so",
       "-lB", "-lA", "-lE"] ∧
    "Bdir/libB.a" ∉ (c2RunE.backendFile.rules.headD emptyRule).cmd ∧
    "Bdir/libB.a.desc" ∉ (c2RunE.backendFile.rules.headD emptyRule).inputs ∧
    "aobj.o" ∈ (c2RunA.backendFile.rules.headD emptyRule).cmd ∧
    "aobj.o" ∉ (c2RunE.backendFile.rules.headD emptyRule).cmd ∧
    "aobj.o" ∉ (c2RunE.backendFile.rules.headD emptyRule).inputs := by
  refine ⟨?_, ?_, ?_, ?_, ?_, ?_⟩ <;> decide

/-- Claim C2 (amended): for the chain E → A → B → S, E's link rule lists E's
own directory closure, A's archive (with its `.desc` descriptor substituted in
the rule inputs) and S's import name only; neither S's internal objects nor
B's archive nor the object closures of A/B appear (they are reached through
A's descriptor), and the system libraries of B, A and E appear after the
command deduplicated by first occurrence, in that traversal order. -/
theorem c2_link_closure_amended (sysS sysB sysA sysE : List String) :
    (processProgram { shell := "/bin/sh" } [] eState
        (eTargetC sysS sysB sysA sysE)).backendFile.rules =
      [{ inputs := ["main.o", "Adir/libA.a.desc", "Sdir/libS.so"],
         extraInputs := [],
         cmd := ["ld.gold", "-o", "%o", "main.o", "Adir/libA.a", "Sdir/libS.so"]
           ++ uniq (sysB ++ (sysA ++ sysE)),
         outputs := ["eprog"], extraOutputs := [], display := "LINK %o",
         checkUnchanged := true }] ∧
    (∀ s, s ∈ uniq (sysB ++ (sysA ++ sysE)) ↔ s ∈ sysB ++ (sysA ++ sysE)) ∧
    (uniq (sysB ++ (sysA ++ sysE))).Nodup := by
  refine ⟨?_, fun s => mem_uniq s _, nodup_uniq _⟩
  unfold processProgram
  rw [gatherLibs_eTarget]
  simp +decide [eTargetC, eState, BackendTupfile.rule, ruleOutputs, uniq, uniqAux,
    descSubst, endsWithStr, joinSpaces, dbGet, isHeaderLike]

/-- Witness for C2 at concrete system libraries with a duplicate, showing the
first-occurrence dedup. -/
theorem c2_link_closure_witness :
    (processProgram { shell := "/bin/sh" } [] eState
        (eTargetC ["-lS"] ["-lX"] ["-lX"] ["-lE"])).backendFile.rules =
      [{ inputs := ["main.o", "Adir/libA.a.desc", "Sdir/libS.so"],
         extraInputs := [],
         cmd := ["ld.gold", "-o", "%o", "main.o", "Adir/libA.a", "Sdir/libS.so"]
           ++ uniq (["-lX"] ++ (["-lX"] ++ ["-lE"])),
         outputs := ["eprog"], extraOutputs := [], display := "LINK %o",
         checkUnchanged := true }] ∧
    (∀ s, s ∈ uniq (["-lX"] ++ (["-lX"] ++ ["-lE"])) ↔
      s ∈ ["-lX"] ++ (["-lX"] ++ ["-lE"])) ∧
    (uniq (["-lX"] ++ (["-lX"] ++ ["-lE"]))).Nodup :=
  c2_link_closure_amended ["-lS"] ["-lX"] ["-lX"] ["-lE"]

/-! ## Claim C6 -/

/-- Claim C6 counterexample: a Program link request whose command cannot be
resolved from the database does NOT get a `touch` placeholder and does NOT
increment the missing-command counters — `_process_program` silently falls
back to a default `ld.gold -o %o` link template and leaves the diagnostics
untouched. -/
theorem c6_missing_command_cex :
    c6Run.missingCommands = st0.missingCommands ∧
    c6Run.backendFile.rules =
      [{ inputs := [], extraInputs := [], cmd := ["ld.gold", "-o", "%o"],
         outputs := ["prog"], extraOutputs := [], display := "LINK %o",
         checkUnchanged := true }] ∧
    (c6Run.backendFile.rules.headD emptyRule).cmd ≠ ["touch", "%o"] := by
  refine ⟨?_, ?_, ?_⟩ <;> decide

/-- Claim C6 (amended): only COMPILE requests get the missing-command
treatment — an unresolved `_write_sources` lookup emits a `touch %o`
placeholder rule and increments the counter once per canonical suffix and once
per object class, and processing continues; an unresolved Program or
SharedLibrary LINK request instead falls back to the default `ld.gold -o %o`
template with no counter change and no placeholder. -/
theorem c6_missing_command_amended (db : CommandsDb) (st : TupState)
    (f sfx cls : String) (u : List String)
    (hmiss : lookupCommand db f st.backendFile.objdir u = none)
    (env : TupEnv) (st2 : TupState) (obj : LinkTarget)
    (hk : obj.kind = .programKind ∨ obj.kind = .sharedLibKind)
    (hname : isHeaderLike obj.name = false)
    (hdb : dbGet db (st2.backendFile.objdir ++ "/" ++ obj.name, st2.backendFile.objdir) = none)
    (hnp : objsPlaceholder ∉ st2.backendFile.sources ++ uniq (gatherLibs obj).1) :
    ((writeSources db st f sfx cls u).missingCommands =
      bumpCount (bumpCount st.missingCommands sfx) cls ∧
     (writeSources db st f sfx cls u).backendFile.rules =
      st.backendFile.rules ++
        [{ inputs := [f], extraInputs := [includesGroup, installedFilesGroup] ++ u,
           cmd := ["touch", "%o"], outputs := ["%B.o", objectsGroup],
           extraOutputs := [],
           display := ((List.lookup sfx suffixMap).getD "Compiling") ++ " %b",
           checkUnchanged := true }]) ∧
    ((processProgram env db st2 obj).missingCommands = st2.missingCommands ∧
     (processProgram env db st2 obj).backendFile.rules =
      st2.backendFile.rules ++
        [{ inputs := (st2.backendFile.sources ++ uniq (gatherLibs obj).1).map descSubst,
           extraInputs := [],
           cmd := (["ld.gold", "-o", "%o"]
             ++ (st2.backendFile.sources ++ uniq (gatherLibs obj).1))
             ++ uniq (gatherLibs obj).2,
           outputs := [obj.name], extraOutputs := [], display := "LINK %o",
           checkUnchanged := true }]) := by
  refine ⟨⟨?_, ?_⟩, ?_, ?_⟩
  · unfold writeSources
    simp [hmiss]
  · unfold writeSources
    simp +decide [hmiss, BackendTupfile.rule, ruleOutputs, isHeaderLike, endsWithStr]
  · unfold processProgram
    rcases hk with hk | hk <;> rw [hk]
  · unfold processProgram
    have hname2 := hname
    rw [isHeaderLike, Bool.or_eq_false_iff] at hname2
    have hnpa : objsPlaceholder ∉ st2.backendFile.sources :=
      fun hm => hnp (List.mem_append.mpr (Or.inl hm))
    have hnpb : objsPlaceholder ∉ uniq (gatherLibs obj).1 :=
      fun hm => hnp (List.mem_append.mpr (Or.inr hm))
    rcases hk with hk | hk <;>
      (rw [hk]
       simp only [hdb]
       simp +decide [BackendTupfile.rule, ruleOutputs, isHeaderLike, hname2.1, hname2.2]
       rw [map_replace_of_not_mem _ _ hnpa, map_replace_of_not_mem _ _ hnpb])

/-- Witness for C6 at a concrete unresolved compile request and a concrete
unresolved SharedLibrary link request. -/
theorem c6_missing_command_witness :
    ((writeSources [] st0 "x.c" ".c" "Sources" []).missingCommands =
      bumpCount (bumpCount st0.missingCommands ".c") "Sources" ∧
     (writeSources [] st0 "x.c" ".c" "Sources" []).backendFile.rules =
      st0.backendFile.rules ++
        [{ inputs := ["x.c"], extraInputs := [includesGroup, installedFilesGroup] ++ [],
           cmd := ["touch", "%o"], outputs := ["%B.o", objectsGroup],
           extraOutputs := [],
           display := ((List.lookup ".c" suffixMap).getD "Compiling") ++ " %b",
           checkUnchanged := true }]) ∧
    ((processProgram { shell := "/bin/sh" } [] st0
        { kind := .sharedLibKind, name := "libw.so", baseName := "w",
          linkedLibraries := [], linkedSystemLibs := [] }).missingCommands =
      st0.missingCommands ∧
     (processProgram { shell := "/bin/sh" } [] st0
        { kind := .sharedLibKind, name := "libw.so", baseName := "w",
          linkedLibraries := [], linkedSystemLibs := [] }).backendFile.rules =
      st0.backendFile.rules ++
        [{ inputs := (st0.backendFile.sources ++ uniq (gatherLibs
              { kind := .sharedLibKind, name := "libw.so", baseName := "w",
                linkedLibraries := [], linkedSystemLibs := [] }).1).map descSubst,
           extraInputs := [],
           cmd := (["ld.gold", "-o", "%o"]
             ++ (st0.backendFile.sources ++ uniq (gatherLibs
                  { kind := .sharedLibKind, name := "libw.so", baseName := "w",
                    linkedLibraries := [], linkedSystemLibs := [] }).1))
             ++ uniq (gatherLibs
                  { kind := .sharedLibKind, name := "libw.so", baseName := "w",
                    linkedLibraries := [], linkedSystemLibs := [] }).2,
           outputs := ["libw.so"], extraOutputs := [], display := "LINK %o",
           checkUnchanged := true }]) :=
  c6_missing_command_amended [] st0 "x.c" ".c" "Sources" [] (by decide)
    { shell := "/bin/sh" } st0
    { kind := .sharedLibKind, name := "libw.so", baseName := "w",
      linkedLibraries := [], linkedSystemLibs := [] }
    (Or.inr rfl) (by decide) (by decide) (by decide)
